import Mathlib

/-!
Shallow embedding of the Elect Nano product-label generator
(`streamlit_app.py`) and proofs about its specification.

Strings are modelled as `List Char`; Python `str.upper` is modelled
character-wise (see `pyUpperChar`); a PDF is modelled by its parsed list of
pages; the external barcode engine is modelled as a deterministic function of
the data string, following the design's treatment of it as an opaque
collaborator.
-/

namespace ElectNano

/-- Models Python `str.upper` applied character-wise: an ASCII lowercase
letter (code points 97-122) maps to the corresponding uppercase letter;
every other character is left unchanged.  Python's Unicode case mapping
agrees with this on the ASCII range, which contains every character of the
GS1 character sets used below. -/
def pyUpperChar (c : Char) : Char :=
  if 97 ≤ c.toNat ∧ c.toNat ≤ 122 then Char.ofNat (c.toNat - 32) else c

/-- The characters kept by the substitution `re.sub(r'[^A-Z0-9\-\.\/]', '', ·)`
used by `sanitize_lot_code` and `sanitize_ai91_text`: uppercase letters
(65-90), digits (48-57), hyphen (45), period (46) and slash (47). -/
def isLotChar (c : Char) : Bool :=
  decide ((65 ≤ c.toNat ∧ c.toNat ≤ 90) ∨ (48 ≤ c.toNat ∧ c.toNat ≤ 57) ∨
    c.toNat = 45 ∨ c.toNat = 46 ∨ c.toNat = 47)

/-- The characters kept by `re.sub(r'[^A-Z0-9\-\.\/ ]', '', ·)` used by
`sanitize_gs1_text`: the lot-code set plus the space (32). -/
def isGs1Char (c : Char) : Bool :=
  isLotChar c || decide (c.toNat = 32)

/-- `sanitize_lot_code`: uppercase, then drop characters outside the
GS1 AI 10 set. -/
def sanitize_lot_code (lot_code : List Char) : List Char :=
  (lot_code.map pyUpperChar).filter isLotChar

/-- `sanitize_gs1_text`: uppercase, then drop characters outside the
general GS1 text set (which also allows the space). -/
def sanitize_gs1_text (text : List Char) : List Char :=
  (text.map pyUpperChar).filter isGs1Char

/-- `sanitize_ai91_text`: uppercase, drop characters outside the AI 91 set
(same set as the lot code), then truncate to 40 characters. -/
def sanitize_ai91_text (text : List Char) : List Char :=
  ((text.map pyUpperChar).filter isLotChar).take 40

/-- A Python `datetime.date` (year 1-9999, month 1-12, day 1-31). -/
structure PyDate where
  year : Nat
  month : Nat
  day : Nat
deriving DecidableEq

/-- Decimal digit characters of `n`, most significant first, with explicit
recursion fuel (the digit at each step is `48 + d`, the code point of the
digit character). -/
def natDigitsAux : Nat → Nat → List Char
  | 0, _ => []
  | fuel + 1, n =>
    if n < 10 then [Char.ofNat (48 + n)]
    else natDigitsAux fuel (n / 10) ++ [Char.ofNat (48 + n % 10)]

/-- The decimal digit characters of `n`, most significant first: models the
digits of Python `str(n)` / `"%d"` formatting for a non-negative integer. -/
def natDigits (n : Nat) : List Char :=
  natDigitsAux (n + 1) n

/-- Models the Python format specifier `0wd` (zero-pad to width `w`):
`f"{n:05d}"` is `padZeros 5 n`.  When the decimal form is already `w`
characters or longer it is returned unpadded, exactly as in Python. -/
def padZeros (w n : Nat) : List Char :=
  List.replicate (w - (natDigits n).length) '0' ++ natDigits n

/-- Models `mfg.strftime("%y%m%d")`: two-digit year (year mod 100), month and
day, each zero-padded to two digits. -/
def strftime_yymmdd (d : PyDate) : List Char :=
  padZeros 2 (d.year % 100) ++ padZeros 2 d.month ++ padZeros 2 d.day

/-- Models `f"{mfg_date:%Y-%m-%d}"`: four-digit year, two-digit month and
day, separated by hyphens. -/
def strftime_iso (d : PyDate) : List Char :=
  padZeros 4 d.year ++ ['-'] ++ padZeros 2 d.month ++ ['-'] ++ padZeros 2 d.day

/-- Re-parse a list of decimal digit characters as a natural number, the way
Python `int(s)` reads a string of digits (leading zeros allowed). -/
def parseNat (cs : List Char) : Nat :=
  cs.foldl (fun a c => 10 * a + (c.toNat - 48)) 0

/-- `build_gs1_string`: assemble the GS1 application-identifier string.
The parameters appear in the order of the Python signature; `sku`,
`cust_po`, `cust_part` and `revision` are sanitized internally, while
`lot` and `note` are emitted verbatim. -/
def build_gs1_string (gtin14 lot : List Char) (mfg : PyDate)
    (country_code sku cust_po cust_part revision note : List Char)
    (quantity : Nat) : List Char :=
  let mfg_str := strftime_yymmdd mfg
  let sku_sanitized := sanitize_gs1_text sku
  let cust_po_sanitized := sanitize_gs1_text cust_po
  let cust_part_sanitized := sanitize_gs1_text cust_part
  let revision_sanitized := sanitize_gs1_text revision
  let qty_str := padZeros 5 quantity
  "(01)".toList ++ gtin14 ++ "(30)".toList ++ qty_str ++ "(11)".toList ++ mfg_str
    ++ "(422)".toList ++ country_code ++ "(10)".toList ++ lot
    ++ "(21)".toList ++ sku_sanitized ++ "(400)".toList ++ cust_po_sanitized
    ++ "(7021)".toList ++ cust_part_sanitized ++ "(7022)".toList ++ revision_sanitized
    ++ "(91)".toList ++ note

/-- Emit one `(identifier)value` pair, following the spec's words for the
GS1 String Builder output format. -/
def emit_ai_pair (p : List Char × List Char) : List Char :=
  ('(' :: p.1) ++ (')' :: p.2)

/-- The ordered application-identifier/value pairs the spec says the builder
emits: 01, 30, 11, 422, 10, then the textual fields 21, 400, 7021, 7022, 91.
This definition follows the spec's words and is compared against
`build_gs1_string`. -/
def spec_ai_pairs (gtin14 lot : List Char) (mfg : PyDate)
    (country_code sku cust_po cust_part revision note : List Char)
    (quantity : Nat) : List (List Char × List Char) :=
  [("01".toList, gtin14),
   ("30".toList, padZeros 5 quantity),
   ("11".toList, strftime_yymmdd mfg),
   ("422".toList, country_code),
   ("10".toList, lot),
   ("21".toList, sanitize_gs1_text sku),
   ("400".toList, sanitize_gs1_text cust_po),
   ("7021".toList, sanitize_gs1_text cust_part),
   ("7022".toList, sanitize_gs1_text revision),
   ("91".toList, note)]

/-- Models the external treepoem barcode engine (`generate_barcode_image`) as
a deterministic function of the data string: the returned image is determined
by the GS1 payload passed in.  Section 4.3 of the design treats the engine as
an opaque collaborator whose only contract is to receive the exact data
string. -/
structure BarcodeImage where
  data : List Char
deriving DecidableEq

/-- `generate_barcode_image`: pass the exact GS1 data string to the barcode
engine. -/
def generate_barcode_image (gs1_data : List Char) : BarcodeImage :=
  ⟨gs1_data⟩

/-- One ReportLab canvas drawing operation of the overlay: a text string drawn
at a position, or the barcode image drawn at a position with a size.
Coordinates are recorded in millimetres, exactly as the literals of the
source; the conversion to points multiplies every coordinate by the fixed
constant `mm`. -/
inductive DrawOp where
  | text : ℚ → ℚ → List Char → DrawOp
  | image : ℚ → ℚ → ℚ → ℚ → BarcodeImage → DrawOp
deriving DecidableEq

/-- The overlay page produced by the ReportLab canvas: page size, font and
the list of drawing operations. -/
structure Overlay where
  pageWidth : ℚ
  pageHeight : ℚ
  font : List Char
  fontSize : Nat
  ops : List DrawOp
deriving DecidableEq

/-- A background PDF, modelled by its parsed list of pages; each page's
content is opaque bytes.  "Background bytes containing zero pages"
corresponds to `pages = []`. -/
structure Pdf where
  pages : List (List Char)
deriving DecidableEq

/-- A produced page: the first background page with the overlay merged onto
it (`page.merge_page(overlay_pdf.pages[0])`). -/
structure MergedPage where
  base : List Char
  overlay : Overlay
deriving DecidableEq

/-- The output PDF written by `PdfWriter`, modelled by the merged document it
serializes; serialization is a fixed function of this structure. -/
structure OutPdf where
  pages : List MergedPage
deriving DecidableEq

/-- A Python exception escaping a library call. -/
inductive PyError where
  | indexError
deriving DecidableEq

/-- `render_label`: draw the nine text lines and the barcode onto the overlay
at the fixed coordinates of the source (start_x = 5 mm, start_y = 73 mm,
step_y = 5.75 mm, barcode at (121.5, 5.7) sized 25 × 25 mm), then merge the
overlay onto the first page of the background.  Accessing `pages[0]` of a
zero-page background raises `IndexError`. -/
def render_label (sku lot_code : List Char) (mfg_date : PyDate)
    (coo_display : List Char) (background : Pdf)
    (gs1_data cust_part revision cust_po note : List Char)
    (quantity : Nat) : Except PyError OutPdf :=
  let ops : List DrawOp :=
    [.text 5 73 ("PART #: ".toList ++ cust_part),
     .text 5 (73 - 5.75) ("REV #: ".toList ++ revision),
     .text 5 (73 - 2 * 5.75) ("PO#: ".toList ++ cust_po),
     .text 5 (73 - 3 * 5.75) ("NOTE: ".toList ++ note.take 40),
     .text 5 (73 - 4 * 5.75) ("QUANTITY: ".toList ++ natDigits quantity),
     .text 5 (73 - 5 * 5.75) ("RESIN SKU: ".toList ++ sku),
     .text 5 (73 - 6 * 5.75) ("RESIN LOT #: ".toList ++ lot_code),
     .text 5 (73 - 7 * 5.75) ("MFG. DATE: ".toList ++ strftime_iso mfg_date),
     .text 5 (73 - 8 * 5.75) ("COO: ".toList ++ coo_display),
     .image 121.5 5.7 25 25 (generate_barcode_image gs1_data)]
  let overlay : Overlay := ⟨152.5, 101.6, "Helvetica".toList, 14, ops⟩
  match background.pages with
  | [] => .error .indexError
  | p :: _ => .ok ⟨[⟨p, overlay⟩]⟩

/-- `load_template`: bytes of the uploaded template when one is in session
state, otherwise the bundled default file's bytes when it exists on disk
(passed here as an explicit optional value), otherwise `None`. -/
def load_template (uploaded : Option Pdf) (default_file : Option Pdf) :
    Option Pdf :=
  match uploaded with
  | some u => some u
  | none => default_file

/-- The three selectable entries of the `country_options` mapping. -/
inductive Country where
  | unitedStates
  | japan
  | china
deriving DecidableEq

/-- Display name of a country option (the dictionary key). -/
def countryDisplay : Country → List Char
  | .unitedStates => "United States".toList
  | .japan => "Japan".toList
  | .china => "China".toList

/-- GS1 numeric code of a country option (the dictionary value). -/
def countryCode : Country → List Char
  | .unitedStates => "840".toList
  | .japan => "392".toList
  | .china => "156".toList

/-- The values captured by the form on submission.  `quantity` is a natural
number: the form's number input enforces a minimum of 1. -/
structure FormInput where
  sku : List Char
  lot_num : List Char
  mfg_date : PyDate
  quantity : Nat
  coo : Country
  cust_po_raw : List Char
  cust_part_raw : List Char
  revision_raw : List Char
  note_raw : List Char
deriving DecidableEq

/-- Outcome of a submitted form in `main`: the lot-code hard stop, the
missing-template stop, an exception escaping uncaught, or the produced GS1
string and label PDF. -/
inductive MainResult where
  | blockedLot : MainResult
  | noTemplate : MainResult
  | uncaught : PyError → MainResult
  | output : List Char → OutPdf → MainResult
deriving DecidableEq

/-- Whether the outcome is one of the user-facing `st.error` messages the
app itself emits (as opposed to an uncaught exception or a produced label). -/
def MainResult.isUserMessage : MainResult → Bool
  | .blockedLot => true
  | .noTemplate => true
  | _ => false

/-- The submitted-path of `main`: sanitize the lot and refuse generation when
it differs from what was typed; load the template and stop with a message
when none is found; otherwise sanitize the remaining fields, build the GS1
string (with the fixed GTIN-14 literal of the source) and render the label.
`render_label` receives the raw note (`note_raw`), while the builder receives
the AI 91-sanitized note — exactly as in the source.  No exception handler
surrounds the render call. -/
def main_submit (f : FormInput) (uploaded default_file : Option Pdf) :
    MainResult :=
  let lot_num := sanitize_lot_code f.lot_num
  if lot_num ≠ f.lot_num then .blockedLot
  else
    match load_template uploaded default_file with
    | none => .noTemplate
    | some bg =>
      let cust_po := sanitize_gs1_text f.cust_po_raw
      let cust_part := sanitize_gs1_text f.cust_part_raw
      let revision := sanitize_gs1_text f.revision_raw
      let note := sanitize_ai91_text f.note_raw
      let gs1_data := build_gs1_string "00069766967842".toList lot_num
        f.mfg_date (countryCode f.coo) f.sku cust_po cust_part revision note
        f.quantity
      match render_label f.sku lot_num f.mfg_date (countryDisplay f.coo) bg
        gs1_data cust_part revision cust_po f.note_raw f.quantity with
      | .error e => .uncaught e
      | .ok pdf => .output gs1_data pdf

/-! ## Helper lemmas -/

theorem toNat_lt_of_isLotChar {c : Char} (h : isLotChar c = true) :
    c.toNat < 97 := by
  simp only [isLotChar, decide_eq_true_eq] at h
  omega

theorem toNat_lt_of_isGs1Char {c : Char} (h : isGs1Char c = true) :
    c.toNat < 97 := by
  simp only [isGs1Char, isLotChar, Bool.or_eq_true, decide_eq_true_eq] at h
  omega

theorem pyUpperChar_eq_self {c : Char} (h : c.toNat < 97) :
    pyUpperChar c = c := by
  unfold pyUpperChar
  rw [if_neg]
  omega

theorem map_eq_self_of_fixed {α : Type} {f : α → α} {l : List α}
    (h : ∀ a ∈ l, f a = a) : l.map f = l :=
  (List.map_congr_left h).trans (List.map_id l)

theorem mem_isLotChar_of_mem_sanitize {c : Char} {s : List Char}
    (h : c ∈ sanitize_lot_code s) : isLotChar c = true :=
  (List.mem_filter.mp h).2

theorem mem_isGs1Char_of_mem_sanitize {c : Char} {s : List Char}
    (h : c ∈ sanitize_gs1_text s) : isGs1Char c = true :=
  (List.mem_filter.mp h).2

theorem mem_isLotChar_of_mem_sanitize_ai91 {c : Char} {s : List Char}
    (h : c ∈ sanitize_ai91_text s) : isLotChar c = true :=
  (List.mem_filter.mp (List.mem_of_mem_take h)).2

theorem sanitize_lot_code_idem (s : List Char) :
    sanitize_lot_code (sanitize_lot_code s) = sanitize_lot_code s := by
  show ((sanitize_lot_code s).map pyUpperChar).filter isLotChar = _
  rw [map_eq_self_of_fixed fun a ha =>
    pyUpperChar_eq_self (toNat_lt_of_isLotChar (mem_isLotChar_of_mem_sanitize ha))]
  exact List.filter_eq_self.mpr fun a ha => mem_isLotChar_of_mem_sanitize ha

theorem sanitize_gs1_text_idem (s : List Char) :
    sanitize_gs1_text (sanitize_gs1_text s) = sanitize_gs1_text s := by
  show ((sanitize_gs1_text s).map pyUpperChar).filter isGs1Char = _
  rw [map_eq_self_of_fixed fun a ha =>
    pyUpperChar_eq_self (toNat_lt_of_isGs1Char (mem_isGs1Char_of_mem_sanitize ha))]
  exact List.filter_eq_self.mpr fun a ha => mem_isGs1Char_of_mem_sanitize ha

theorem sanitize_ai91_text_length_le (s : List Char) :
    (sanitize_ai91_text s).length ≤ 40 := by
  unfold sanitize_ai91_text
  simp

theorem sanitize_ai91_text_idem (s : List Char) :
    sanitize_ai91_text (sanitize_ai91_text s) = sanitize_ai91_text s := by
  show (((sanitize_ai91_text s).map pyUpperChar).filter isLotChar).take 40 = _
  rw [map_eq_self_of_fixed fun a ha =>
    pyUpperChar_eq_self (toNat_lt_of_isLotChar (mem_isLotChar_of_mem_sanitize_ai91 ha))]
  rw [List.filter_eq_self.mpr fun a ha => mem_isLotChar_of_mem_sanitize_ai91 ha]
  exact List.take_of_length_le (sanitize_ai91_text_length_le s)

theorem digit_char_toNat {d : Nat} (h : d < 10) :
    (Char.ofNat (48 + d)).toNat = 48 + d := by
  revert h
  revert d
  decide

theorem parseNat_append_single (l : List Char) (c : Char) :
    parseNat (l ++ [c]) = 10 * parseNat l + (c.toNat - 48) := by
  unfold parseNat
  rw [List.foldl_append]
  rfl

theorem parseNat_natDigitsAux :
    ∀ fuel n, n < 10 ^ fuel → parseNat (natDigitsAux fuel n) = n := by
  intro fuel
  induction fuel with
  | zero =>
    intro n h
    interval_cases n
    rfl
  | succ fuel ih =>
    intro n h
    unfold natDigitsAux
    by_cases h10 : n < 10
    · rw [if_pos h10]
      show 10 * 0 + ((Char.ofNat (48 + n)).toNat - 48) = n
      rw [digit_char_toNat h10]
      omega
    · rw [if_neg h10, parseNat_append_single,
        ih (n / 10) ?_, digit_char_toNat (Nat.mod_lt n (by norm_num))]
      · omega
      · have hp : (10 : Nat) ^ (fuel + 1) = 10 ^ fuel * 10 := pow_succ 10 fuel
        omega

theorem parseNat_natDigits (n : Nat) : parseNat (natDigits n) = n := by
  unfold natDigits
  exact parseNat_natDigitsAux (n + 1) n
    (lt_of_lt_of_le (Nat.lt_pow_self (by norm_num) n)
      (Nat.pow_le_pow_right (by norm_num) (Nat.le_succ n)))

theorem parseNat_replicate_zero (k : Nat) (cs : List Char) :
    parseNat (List.replicate k '0' ++ cs) = parseNat cs := by
  unfold parseNat
  rw [List.foldl_append]
  congr 1
  induction k with
  | zero => rfl
  | succ m ih =>
    rw [List.replicate_succ, List.foldl_cons,
      show 10 * 0 + ('0'.toNat - 48) = 0 from rfl]
    exact ih

theorem parseNat_padZeros (w n : Nat) : parseNat (padZeros w n) = n := by
  unfold padZeros
  rw [parseNat_replicate_zero]
  exact parseNat_natDigits n

theorem natDigitsAux_length :
    ∀ fuel n k, 1 ≤ k → n < 10 ^ k → (natDigitsAux fuel n).length ≤ k := by
  intro fuel
  induction fuel with
  | zero =>
    intro n k hk _
    simp [natDigitsAux]
  | succ fuel ih =>
    intro n k hk h
    unfold natDigitsAux
    by_cases h10 : n < 10
    · rw [if_pos h10]
      simpa using hk
    · rw [if_neg h10]
      rw [List.length_append, List.length_cons, List.length_nil]
      have hk2 : 2 ≤ k := by
        by_contra hcon
        have : k = 1 := by omega
        subst this
        simp at h
        omega
      have hdiv : n / 10 < 10 ^ (k - 1) := by
        have hp : (10 : Nat) ^ (k - 1) * 10 = 10 ^ k := by
          rw [← pow_succ]
          congr 1
          omega
        omega
      have := ih (n / 10) (k - 1) (by omega) hdiv
      omega

theorem natDigits_length_le {n k : Nat} (hk : 1 ≤ k) (h : n < 10 ^ k) :
    (natDigits n).length ≤ k :=
  natDigitsAux_length (n + 1) n k hk h

theorem padZeros_length {w n : Nat} (h : (natDigits n).length ≤ w) :
    (padZeros w n).length = w := by
  unfold padZeros
  rw [List.length_append, List.length_replicate]
  omega

theorem padZeros2_length {n : Nat} (h : n < 100) : (padZeros 2 n).length = 2 := by
  refine padZeros_length (natDigits_length_le (by norm_num) ?_)
  norm_num
  exact h

theorem chars_ai01 : "(01)".toList = ['(', '0', '1', ')'] := rfl

theorem chars_ai30 : "(30)".toList = ['(', '3', '0', ')'] := rfl

theorem chars_ai11 : "(11)".toList = ['(', '1', '1', ')'] := rfl

theorem chars_ai422 : "(422)".toList = ['(', '4', '2', '2', ')'] := rfl

theorem chars_ai10 : "(10)".toList = ['(', '1', '0', ')'] := rfl

theorem chars_ai21 : "(21)".toList = ['(', '2', '1', ')'] := rfl

theorem chars_ai400 : "(400)".toList = ['(', '4', '0', '0', ')'] := rfl

theorem chars_ai7021 : "(7021)".toList = ['(', '7', '0', '2', '1', ')'] := rfl

theorem chars_ai7022 : "(7022)".toList = ['(', '7', '0', '2', '2', ')'] := rfl

theorem chars_ai91 : "(91)".toList = ['(', '9', '1', ')'] := rfl

theorem chars_01 : "01".toList = ['0', '1'] := rfl

theorem chars_30 : "30".toList = ['3', '0'] := rfl

theorem chars_11 : "11".toList = ['1', '1'] := rfl

theorem chars_422 : "422".toList = ['4', '2', '2'] := rfl

theorem chars_10 : "10".toList = ['1', '0'] := rfl

theorem chars_21 : "21".toList = ['2', '1'] := rfl

theorem chars_400 : "400".toList = ['4', '0', '0'] := rfl

theorem chars_7021 : "7021".toList = ['7', '0', '2', '1'] := rfl

theorem chars_7022 : "7022".toList = ['7', '0', '2', '2'] := rfl

theorem chars_91 : "91".toList = ['9', '1'] := rfl

theorem strftime_yymmdd_fields (d : PyDate) (hm : d.month < 100)
    (hd : d.day < 100) :
    (strftime_yymmdd d).take 2 = padZeros 2 (d.year % 100) ∧
    ((strftime_yymmdd d).drop 2).take 2 = padZeros 2 d.month ∧
    (strftime_yymmdd d).drop 4 = padZeros 2 d.day := by
  have h1 : (padZeros 2 (d.year % 100)).length = 2 :=
    padZeros2_length (Nat.mod_lt _ (by norm_num))
  have h2 : (padZeros 2 d.month).length = 2 := padZeros2_length hm
  have h3 : (padZeros 2 d.day).length = 2 := padZeros2_length hd
  unfold strftime_yymmdd
  refine ⟨?_, ?_, ?_⟩
  · rw [List.append_assoc, List.take_left' h1]
  · rw [List.append_assoc, List.drop_left' h1, List.take_left' h2]
  · rw [List.drop_left' (by rw [List.length_append, h1, h2])]

/-! ## Claim theorems -/

/-- C2: each of the three sanitizers (lot code, general GS1 text, AI 91 note)
normalizes case to uppercase before filtering, produces output containing
only characters of its allowed set, drops disallowed characters rather than
replacing them (its output is a subsequence of the uppercased input), and is
idempotent: sanitizing twice equals sanitizing once. -/
theorem C2_sanitizers_allowed_idempotent (s : List Char) :
    (sanitize_lot_code s = (s.map pyUpperChar).filter isLotChar ∧
      (∀ c ∈ sanitize_lot_code s, isLotChar c = true) ∧
      (sanitize_lot_code s).Sublist (s.map pyUpperChar) ∧
      sanitize_lot_code (sanitize_lot_code s) = sanitize_lot_code s) ∧
    (sanitize_gs1_text s = (s.map pyUpperChar).filter isGs1Char ∧
      (∀ c ∈ sanitize_gs1_text s, isGs1Char c = true) ∧
      (sanitize_gs1_text s).Sublist (s.map pyUpperChar) ∧
      sanitize_gs1_text (sanitize_gs1_text s) = sanitize_gs1_text s) ∧
    (sanitize_ai91_text s = ((s.map pyUpperChar).filter isLotChar).take 40 ∧
      (∀ c ∈ sanitize_ai91_text s, isLotChar c = true) ∧
      (sanitize_ai91_text s).Sublist (s.map pyUpperChar) ∧
      sanitize_ai91_text (sanitize_ai91_text s) = sanitize_ai91_text s) :=
  ⟨⟨rfl, fun _ hc => mem_isLotChar_of_mem_sanitize hc, List.filter_sublist _,
      sanitize_lot_code_idem s⟩,
   ⟨rfl, fun _ hc => mem_isGs1Char_of_mem_sanitize hc, List.filter_sublist _,
      sanitize_gs1_text_idem s⟩,
   ⟨rfl, fun _ hc => mem_isLotChar_of_mem_sanitize_ai91 hc,
      (List.take_sublist 40 _).trans (List.filter_sublist _),
      sanitize_ai91_text_idem s⟩⟩

/-- Witness for C2 at a concrete input: the allowed-set membership and the
idempotence instance, evaluated on the string en-a!x. -/
theorem C2_sanitizers_allowed_idempotent_witness :
    'A' ∈ sanitize_lot_code "en-a!x".toList ∧ isLotChar 'A' = true ∧
      sanitize_lot_code (sanitize_lot_code "en-a!x".toList) =
        sanitize_lot_code "en-a!x".toList :=
  ⟨by decide,
   (C2_sanitizers_allowed_idempotent "en-a!x".toList).1.2.1 'A' (by decide),
   (C2_sanitizers_allowed_idempotent "en-a!x".toList).1.2.2.2⟩

theorem build_gs1_eq_flatten_pairs (gtin14 lot : List Char) (mfg : PyDate)
    (country_code sku cust_po cust_part revision note : List Char)
    (quantity : Nat) :
    build_gs1_string gtin14 lot mfg country_code sku cust_po cust_part revision
        note quantity
      = ((spec_ai_pairs gtin14 lot mfg country_code sku cust_po cust_part
          revision note quantity).map emit_ai_pair).flatten := by
  simp only [build_gs1_string, spec_ai_pairs, emit_ai_pair, List.map_cons,
    List.map_nil, List.flatten_cons, List.flatten_nil, chars_ai01, chars_ai30, chars_ai11, chars_ai422,
    chars_ai10, chars_ai21, chars_ai400, chars_ai7021, chars_ai7022, chars_ai91,
    chars_01, chars_30, chars_11, chars_422, chars_10, chars_21, chars_400,
    chars_7021, chars_7022, chars_91, List.cons_append, List.nil_append,
    List.append_nil, List.append_assoc]

/-- C3: the GS1 string builder emits each (application-identifier)value pair
in the fixed order 01, 30, 11, 422, 10, 21, 400, 7021, 7022, 91, and its
output is exactly the concatenation of these pairs with nothing else
(`spec_ai_pairs` lists the pairs following the spec's words). -/
theorem C3_fixed_order_wire_format (gtin14 lot : List Char) (mfg : PyDate)
    (country_code sku cust_po cust_part revision note : List Char)
    (quantity : Nat) :
    build_gs1_string gtin14 lot mfg country_code sku cust_po cust_part revision
        note quantity
      = ((spec_ai_pairs gtin14 lot mfg country_code sku cust_po cust_part
          revision note quantity).map emit_ai_pair).flatten :=
  build_gs1_eq_flatten_pairs gtin14 lot mfg country_code sku cust_po cust_part
    revision note quantity

/-- C4: the quantity field of the assembled GS1 string is the quantity
zero-padded to 5 digits and the manufacturing date field is YYMMDD
(two-digit year, month, day); for every quantity below 100000 the field is
exactly 5 characters, and quantity 7 encodes as 00007. -/
theorem C4_quantity_padding_and_date (gtin14 lot : List Char) (mfg : PyDate)
    (country_code sku cust_po cust_part revision note : List Char)
    (quantity : Nat) :
    build_gs1_string gtin14 lot mfg country_code sku cust_po cust_part revision
        note quantity
      = ("(01)".toList ++ gtin14) ++ ("(30)".toList ++ padZeros 5 quantity)
        ++ ("(11)".toList ++ strftime_yymmdd mfg)
        ++ ("(422)".toList ++ country_code ++ "(10)".toList ++ lot
          ++ "(21)".toList ++ sanitize_gs1_text sku ++ "(400)".toList
          ++ sanitize_gs1_text cust_po ++ "(7021)".toList
          ++ sanitize_gs1_text cust_part ++ "(7022)".toList
          ++ sanitize_gs1_text revision ++ "(91)".toList ++ note) ∧
    strftime_yymmdd mfg
      = padZeros 2 (mfg.year % 100) ++ padZeros 2 mfg.month
        ++ padZeros 2 mfg.day ∧
    (quantity < 100000 → (padZeros 5 quantity).length = 5) ∧
    padZeros 5 7 = "00007".toList := by
  refine ⟨?_, rfl, ?_, by decide⟩
  · simp [build_gs1_string, List.append_assoc]
  · intro h
    refine padZeros_length (natDigits_length_le (by norm_num) ?_)
    norm_num
    exact h

/-- Witness for C4: quantity 7 is accepted (below 100000) and its field has
length 5. -/
theorem C4_quantity_padding_and_date_witness :
    (7 : Nat) < 100000 ∧ (padZeros 5 7).length = 5 :=
  ⟨by decide,
   (C4_quantity_padding_and_date [] [] ⟨2025, 1, 1⟩ [] [] [] [] [] [] 7).2.2.1
     (by decide)⟩

/-- C5: the numeric encodings of the assembled identifier string round-trip:
re-parsing the zero-padded quantity field recovers the quantity, and
re-parsing the three two-character components of the YYMMDD date field
recovers year mod 100, month and day. -/
theorem C5_numeric_roundtrip (gtin14 lot : List Char) (mfg : PyDate)
    (country_code sku cust_po cust_part revision note : List Char)
    (quantity : Nat) (hm : mfg.month ≤ 12) (hd : mfg.day ≤ 31) :
    build_gs1_string gtin14 lot mfg country_code sku cust_po cust_part revision
        note quantity
      = ("(01)".toList ++ gtin14) ++ ("(30)".toList ++ padZeros 5 quantity)
        ++ ("(11)".toList ++ strftime_yymmdd mfg)
        ++ ("(422)".toList ++ country_code ++ "(10)".toList ++ lot
          ++ "(21)".toList ++ sanitize_gs1_text sku ++ "(400)".toList
          ++ sanitize_gs1_text cust_po ++ "(7021)".toList
          ++ sanitize_gs1_text cust_part ++ "(7022)".toList
          ++ sanitize_gs1_text revision ++ "(91)".toList ++ note) ∧
    parseNat (padZeros 5 quantity) = quantity ∧
    parseNat ((strftime_yymmdd mfg).take 2) = mfg.year % 100 ∧
    parseNat (((strftime_yymmdd mfg).drop 2).take 2) = mfg.month ∧
    parseNat ((strftime_yymmdd mfg).drop 4) = mfg.day := by
  obtain ⟨e1, e2, e3⟩ := strftime_yymmdd_fields mfg (by omega) (by omega)
  refine ⟨?_, parseNat_padZeros 5 quantity, ?_, ?_, ?_⟩
  · simp [build_gs1_string, List.append_assoc]
  · rw [e1, parseNat_padZeros]
  · rw [e2, parseNat_padZeros]
  · rw [e3, parseNat_padZeros]

/-- Witness for C5 at quantity 7 and date 2025-10-12. -/
theorem C5_numeric_roundtrip_witness :
    (⟨2025, 10, 12⟩ : PyDate).month ≤ 12 ∧ (⟨2025, 10, 12⟩ : PyDate).day ≤ 31 ∧
      parseNat (padZeros 5 7) = 7 :=
  ⟨by decide, by decide,
   (C5_numeric_roundtrip [] [] ⟨2025, 10, 12⟩ [] [] [] [] [] [] 7 (by decide)
     (by decide)).2.1⟩

/-- C10: the builder sanitizes sku, customer PO, customer part and revision
internally (building from raw input equals building from pre-sanitized
input for those four fields), but emits the lot and note arguments verbatim:
they appear unchanged after the (10) and (91) markers of the output. -/
theorem C10_internal_sanitization_verbatim_lot_note (gtin14 lot : List Char)
    (mfg : PyDate) (country_code sku cust_po cust_part revision note : List Char)
    (quantity : Nat) :
    build_gs1_string gtin14 lot mfg country_code sku cust_po cust_part revision
        note quantity
      = build_gs1_string gtin14 lot mfg country_code (sanitize_gs1_text sku)
          (sanitize_gs1_text cust_po) (sanitize_gs1_text cust_part)
          (sanitize_gs1_text revision) note quantity ∧
    build_gs1_string gtin14 lot mfg country_code sku cust_po cust_part revision
        note quantity
      = ("(01)".toList ++ gtin14 ++ "(30)".toList ++ padZeros 5 quantity
          ++ "(11)".toList ++ strftime_yymmdd mfg ++ "(422)".toList
          ++ country_code ++ "(10)".toList)
        ++ lot
        ++ ("(21)".toList ++ sanitize_gs1_text sku ++ "(400)".toList
          ++ sanitize_gs1_text cust_po ++ "(7021)".toList
          ++ sanitize_gs1_text cust_part ++ "(7022)".toList
          ++ sanitize_gs1_text revision ++ "(91)".toList)
        ++ note := by
  constructor
  · simp [build_gs1_string, sanitize_gs1_text_idem]
  · simp [build_gs1_string, List.append_assoc]

/-- C1: determinism of the label renderer: two invocations of `render_label`
with identical inputs (same sku, lot code, manufacturing date, country
display, background bytes, GS1 data string, customer part, revision, PO,
note and quantity) produce identical output bytes.  The embedding receives
no clock and no randomness source: the output is a function of exactly these
eleven inputs. -/
theorem C1_render_label_deterministic
    (sku lot_code : List Char) (mfg_date : PyDate) (coo_display : List Char)
    (background : Pdf) (gs1_data cust_part revision cust_po note : List Char)
    (quantity : Nat)
    (sku' lot_code' : List Char) (mfg_date' : PyDate) (coo_display' : List Char)
    (background' : Pdf) (gs1_data' cust_part' revision' cust_po' note' : List Char)
    (quantity' : Nat)
    (h1 : sku = sku') (h2 : lot_code = lot_code') (h3 : mfg_date = mfg_date')
    (h4 : coo_display = coo_display') (h5 : background = background')
    (h6 : gs1_data = gs1_data') (h7 : cust_part = cust_part')
    (h8 : revision = revision') (h9 : cust_po = cust_po') (h10 : note = note')
    (h11 : quantity = quantity') :
    render_label sku lot_code mfg_date coo_display background gs1_data
        cust_part revision cust_po note quantity =
      render_label sku' lot_code' mfg_date' coo_display' background' gs1_data'
        cust_part' revision' cust_po' note' quantity' := by
  subst h1 h2 h3 h4 h5 h6 h7 h8 h9 h10 h11
  rfl

/-- Witness for C1 at a concrete input (a one-page background). -/
theorem C1_render_label_deterministic_witness :
    ([] : List Char) = [] ∧
      render_label [] [] ⟨2025, 1, 1⟩ [] ⟨[[]]⟩ [] [] [] [] [] 1 =
        render_label [] [] ⟨2025, 1, 1⟩ [] ⟨[[]]⟩ [] [] [] [] [] 1 :=
  ⟨rfl,
   C1_render_label_deterministic [] [] ⟨2025, 1, 1⟩ [] ⟨[[]]⟩ [] [] [] [] [] 1
     [] [] ⟨2025, 1, 1⟩ [] ⟨[[]]⟩ [] [] [] [] [] 1
     rfl rfl rfl rfl rfl rfl rfl rfl rfl rfl rfl⟩

set_option maxRecDepth 8192 in
/-- C6 (counterexample): at a concrete submission with quantity 25 — the
input on which, per the claim, a weight of 25.00 kg would have to encode as
the 6-digit string 025000 — the assembled GS1 string does not contain
025000 anywhere. -/
theorem C6_counterexample_no_weight_encoding :
    ¬ ("025000".toList <:+:
        build_gs1_string "00069766967842".toList "EN-2501-AA".toList
          ⟨2025, 1, 1⟩ "840".toList "SKU".toList "PO1".toList "P1".toList
          "01".toList "N".toList 25) := by
  decide

/-- C6 (amended): the assembled GS1 string has no weight field: the builder
takes no weight argument, and the identifiers it emits are exactly
01, 30, 11, 422, 10, 21, 400, 7021, 7022, 91 — none of them a weight
identifier. -/
theorem C6_no_weight_field (gtin14 lot : List Char) (mfg : PyDate)
    (country_code sku cust_po cust_part revision note : List Char)
    (quantity : Nat) :
    (spec_ai_pairs gtin14 lot mfg country_code sku cust_po cust_part revision
        note quantity).map Prod.fst
      = ["01".toList, "30".toList, "11".toList, "422".toList, "10".toList,
         "21".toList, "400".toList, "7021".toList, "7022".toList,
         "91".toList] ∧
    build_gs1_string gtin14 lot mfg country_code sku cust_po cust_part revision
        note quantity
      = ((spec_ai_pairs gtin14 lot mfg country_code sku cust_po cust_part
          revision note quantity).map emit_ai_pair).flatten :=
  ⟨rfl, build_gs1_eq_flatten_pairs gtin14 lot mfg country_code sku cust_po
    cust_part revision note quantity⟩

theorem main_submit_blockedLot_of_mismatch (f : FormInput)
    (uploaded default_file : Option Pdf)
    (h : sanitize_lot_code f.lot_num ≠ f.lot_num) :
    main_submit f uploaded default_file = .blockedLot := by
  unfold main_submit
  rw [if_pos h]

theorem main_submit_ne_blockedLot (f : FormInput)
    (uploaded default_file : Option Pdf)
    (h : sanitize_lot_code f.lot_num = f.lot_num) :
    main_submit f uploaded default_file ≠ .blockedLot := by
  unfold main_submit
  rw [if_neg (by simp [h])]
  cases hl : load_template uploaded default_file with
  | none => simp
  | some bg =>
    dsimp only
    split
    · simp
    · simp

/-- C7: label generation is refused exactly when the sanitized lot code
differs from the lot code the user typed (the hard stop produces no output
PDF), and EN-2501-XX!! sanitizes to EN-2501-XX. -/
theorem C7_lot_mismatch_blocks (f : FormInput)
    (uploaded default_file : Option Pdf) :
    (main_submit f uploaded default_file = .blockedLot ↔
      sanitize_lot_code f.lot_num ≠ f.lot_num) ∧
    sanitize_lot_code "EN-2501-XX!!".toList = "EN-2501-XX".toList := by
  refine ⟨⟨fun hb => ?_, fun hne => main_submit_blockedLot_of_mismatch f _ _ hne⟩, by decide⟩
  by_cases hc : sanitize_lot_code f.lot_num = f.lot_num
  · exact absurd hb (main_submit_ne_blockedLot f uploaded default_file hc)
  · exact hc

/-- Witness for C7 at a concrete blocked submission: the typed lot code
EN-2501-XX!! differs from its sanitization, and the outcome is the lot-code
hard stop. -/
theorem C7_lot_mismatch_blocks_witness :
    sanitize_lot_code "EN-2501-XX!!".toList ≠ "EN-2501-XX!!".toList ∧
      main_submit ⟨[], "EN-2501-XX!!".toList, ⟨2025, 1, 1⟩, 1, .unitedStates,
        [], [], [], []⟩ none none = .blockedLot :=
  ⟨by decide,
   (C7_lot_mismatch_blocks ⟨[], "EN-2501-XX!!".toList, ⟨2025, 1, 1⟩, 1,
     .unitedStates, [], [], [], []⟩ none none).1.mpr (by decide)⟩

/-- C8: with no uploaded template and the bundled default file absent, the
template loader returns absence (`none`) rather than crashing, and the
submitted operation halts with the missing-template user-facing message and
produces no output bytes. -/
theorem C8_missing_template (f : FormInput)
    (h : sanitize_lot_code f.lot_num = f.lot_num) :
    load_template none none = none ∧
    main_submit f none none = .noTemplate ∧
    (main_submit f none none).isUserMessage = true := by
  have h2 : main_submit f none none = .noTemplate := by
    unfold main_submit
    rw [if_neg (by simp [h])]
    rfl
  exact ⟨rfl, h2, by rw [h2]; rfl⟩

/-- Witness for C8 at a concrete form input with a valid lot code. -/
theorem C8_missing_template_witness :
    sanitize_lot_code ("EN-2501-AA".toList) = "EN-2501-AA".toList ∧
      main_submit ⟨[], "EN-2501-AA".toList, ⟨2025, 1, 1⟩, 1, .unitedStates,
        [], [], [], []⟩ none none = .noTemplate :=
  ⟨by decide,
   (C8_missing_template ⟨[], "EN-2501-AA".toList, ⟨2025, 1, 1⟩, 1,
     .unitedStates, [], [], [], []⟩ (by decide)).2.1⟩

/-- C9 (amended): when the background PDF bytes contain zero pages the label
composer fails with an index error and produces no output bytes, but the
failure is NOT converted to a user-facing message: in `main` it escapes as
an uncaught exception. -/
theorem C9_zero_pages_uncaught (f : FormInput) (bg : Pdf)
    (default_file : Option Pdf)
    (sku lot_code : List Char) (mfg_date : PyDate) (coo_display : List Char)
    (gs1_data cust_part revision cust_po note : List Char) (quantity : Nat)
    (hlot : sanitize_lot_code f.lot_num = f.lot_num)
    (hbg : bg.pages = []) :
    render_label sku lot_code mfg_date coo_display bg gs1_data cust_part
        revision cust_po note quantity = .error .indexError ∧
    main_submit f (some bg) default_file = .uncaught .indexError ∧
    (main_submit f (some bg) default_file).isUserMessage = false := by
  have hrender : ∀ (a b : List Char) (d : PyDate) (c e g i j k : List Char)
      (q : Nat), render_label a b d c bg e g i j k q = .error .indexError := by
    intro a b d c e g i j k q
    unfold render_label
    rw [hbg]
  have h2 : main_submit f (some bg) default_file = .uncaught .indexError := by
    unfold main_submit
    rw [if_neg (by simp [hlot])]
    dsimp only [load_template]
    rw [hrender]
  exact ⟨hrender sku lot_code mfg_date coo_display gs1_data cust_part revision
    cust_po note quantity, h2, by rw [h2]; rfl⟩

/-- Witness for C9's amended theorem at a concrete input with a zero-page
background. -/
theorem C9_zero_pages_uncaught_witness :
    sanitize_lot_code ("EN-2501-AA".toList) = "EN-2501-AA".toList ∧
      (⟨[]⟩ : Pdf).pages = [] ∧
      main_submit ⟨[], "EN-2501-AA".toList, ⟨2025, 1, 1⟩, 1, .unitedStates,
        [], [], [], []⟩ (some ⟨[]⟩) none = .uncaught .indexError :=
  ⟨by decide, rfl,
   (C9_zero_pages_uncaught ⟨[], "EN-2501-AA".toList, ⟨2025, 1, 1⟩, 1,
     .unitedStates, [], [], [], []⟩ ⟨[]⟩ none [] [] ⟨2025, 1, 1⟩ [] [] [] []
     [] [] 1 (by decide) rfl).2.1⟩

/-- C9 (counterexample): at a concrete submission whose background has zero
pages, the outcome of `main` is an uncaught index error, not one of the
app's user-facing messages — refuting the claim that this failure is
converted to a user-facing message. -/
theorem C9_counterexample_not_user_facing :
    main_submit ⟨[], "EN-2501-AA".toList, ⟨2025, 1, 1⟩, 1, .unitedStates,
        [], [], [], []⟩ (some ⟨[]⟩) none = .uncaught .indexError ∧
      MainResult.isUserMessage (.uncaught .indexError) = false := by
  constructor
  · rfl
  · rfl

end ElectNano
